import Mathlib

/-!
Shallow embedding of the zerodha-mcp client code
(`src/client/agno_client.py`, `src/client/agno_gradio_client.py`,
`src/client/google_adk_client.py`) for checking the session-lifecycle
specification.  Resource operations on the Transport Stream and Protocol
Session are recorded as events in a trace; external failures (a network
step raising an exception) are supplied by an oracle, one Boolean per
fallible step.
-/

namespace ZerodhaMCP

/-- Observable operations on the transport and session resources. -/
inductive Event where
  | openStream      -- `sse_client(url=...).__aenter__()` succeeds
  | enterSession    -- `ClientSession(*streams)` constructed and `__aenter__` succeeds
  | initCall        -- `session.initialize()` succeeds
  | listTools       -- `session.list_tools()` succeeds
  | closeSession    -- `self._session_context.__aexit__(None, None, None)` invoked
  | closeStream     -- `self._streams_context.__aexit__(None, None, None)` invoked
  deriving DecidableEq, Repr

/-- Which of the fallible steps of `connect_to_sse_server` raises. -/
structure ConnectOracle where
  openFails : Bool       -- the stream-open `__aenter__` raises
  sessionFails : Bool    -- the `ClientSession` `__aenter__` raises
  initFails : Bool       -- `session.initialize()` raises
  listToolsFails : Bool  -- `session.list_tools()` raises
  deriving DecidableEq, Repr

/-- The attribute state of an `MCPClient` instance: whether
`self._streams_context`, `self._session_context` and `self.session`
hold a (truthy) object. -/
structure MCPClientState where
  streamsCtx : Bool
  sessionCtx : Bool
  hasSession : Bool
  deriving DecidableEq, Repr

/-- `MCPClient.__init__` (gradio variant, lines 35-38): all three unset. -/
def MCPClientState.fresh : MCPClientState :=
  { streamsCtx := false, sessionCtx := false, hasSession := false }

/-- Result of one call to `connect_to_sse_server`: the events performed,
the client state left behind, and whether an exception propagated to the
caller. -/
structure ConnectResult where
  trace : List Event
  state : MCPClientState
  raised : Bool
  deriving DecidableEq, Repr

/-- The step sequence shared by both `connect_to_sse_server` bodies
(agno_client.py lines 68-81, agno_gradio_client.py lines 43-50):
assign and enter the SSE stream context, assign and enter the
`ClientSession` context, `initialize`, `list_tools`.  No cleanup is
performed here on failure; the result records where execution stopped. -/
def connectSteps (o : ConnectOracle) : ConnectResult :=
  -- self._streams_context = sse_client(url=server_url): the attribute is
  -- assigned before the stream is entered, so it is truthy even if the
  -- subsequent __aenter__ raises.
  let s1 : MCPClientState := { streamsCtx := true, sessionCtx := false, hasSession := false }
  if o.openFails then ⟨[], s1, true⟩ else
  let t1 := [Event.openStream]
  -- self._session_context = ClientSession(*streams): assigned before
  -- its __aenter__ runs.
  let s2 := { s1 with sessionCtx := true }
  if o.sessionFails then ⟨t1, s2, true⟩ else
  let t2 := t1 ++ [Event.enterSession]
  let s3 := { s2 with hasSession := true }
  if o.initFails then ⟨t2, s3, true⟩ else
  let t3 := t2 ++ [Event.initCall]
  if o.listToolsFails then ⟨t3, s3, true⟩ else
  ⟨t3 ++ [Event.listTools], s3, false⟩

/-- `MCPClient.cleanup` of agno_client.py (lines 83-88): exits the session
context if set, then the streams context if set.  Neither attribute is
cleared, and `self.session` is left as it was. -/
def cleanupAgno (s : MCPClientState) : List Event × MCPClientState :=
  ((if s.sessionCtx then [Event.closeSession] else []) ++
   (if s.streamsCtx then [Event.closeStream] else []), s)

/-- `MCPClient.cleanup` of agno_gradio_client.py (lines 56-61): exits the
session context if set, then the streams context if set, then sets
`self.session = None`.  The two context attributes are not cleared. -/
def cleanupGradio (s : MCPClientState) : List Event × MCPClientState :=
  ((if s.sessionCtx then [Event.closeSession] else []) ++
   (if s.streamsCtx then [Event.closeStream] else []),
   { s with hasSession := false })

/-- `MCPClient.connect_to_sse_server` of agno_client.py (lines 68-81):
the bare step sequence with no exception handler, so a failure
propagates with no cleanup. -/
def connectAgno (o : ConnectOracle) : ConnectResult :=
  connectSteps o

/-- `MCPClient.connect_to_sse_server` of agno_gradio_client.py
(lines 40-54): the same steps inside `try`; on any exception it runs
`await self.cleanup()` and re-raises. -/
def connectGradio (o : ConnectOracle) : ConnectResult :=
  let r := connectSteps o
  if r.raised then
    let c := cleanupGradio r.state
    ⟨r.trace ++ c.1, c.2, true⟩
  else r

/-! ### Interactive loop models -/

/-- What the agent runtime does on one non-quit user input: succeed with a
response, raise an ordinary `Exception`, or be hit by an external
interrupt (`KeyboardInterrupt`, which is not an `Exception` subclass). -/
inductive TurnSignal where
  | ok (response : String)
  | raisesExc (msg : String)
  | interrupt
  deriving DecidableEq, Repr

/-- How an interactive loop ended. -/
inductive LoopExit where
  | quitCmd      -- user typed quit (case-insensitively) and the loop broke
  | exhausted    -- the input script ended (the real loop would await more input)
  | caughtError  -- an Exception escaped the while loop
  | interrupted  -- a KeyboardInterrupt escaped the while loop
  deriving DecidableEq, Repr

/-- The Python method str.lower applied to the characters of the string (the inputs here
are ASCII, where `Char.toLower` agrees with Python). -/
def pyLower (s : String) : String := String.mk (s.data.map Char.toLower)

/-- The `while True` loop of `main` in agno_client.py (lines 158-183),
run against a finite script of user inputs.  The body has no exception
handler, so the first turn whose `agent.arun` raises ends the loop.
Returns the number of turns attempted and how the loop ended. -/
def agnoLoop : List (String × TurnSignal) → Nat × LoopExit
  | [] => (0, LoopExit.exhausted)
  | (q, sig) :: rest =>
    if pyLower q = "quit" then (0, LoopExit.quitCmd)
    else
      match sig with
      | TurnSignal.ok _ =>
          let r := agnoLoop rest
          (r.1 + 1, r.2)
      | TurnSignal.raisesExc _ => (1, LoopExit.caughtError)
      | TurnSignal.interrupt => (1, LoopExit.interrupted)

/-- Outcome of a whole `main` run (after the loop, its `except` and
`finally` clauses). -/
structure MainResult where
  turns : Nat
  exit : LoopExit
  errorPrinted : Bool  -- the `except Exception` branch rendered the error
  cleanupRan : Bool    -- the `finally` block ran the disconnect/cleanup call
  deriving DecidableEq, Repr

/-- `main` of agno_client.py (lines 157-189): `try` around the whole loop,
`except Exception` prints the error (a `KeyboardInterrupt` is not an
`Exception` and skips this branch), `finally` always runs
`await mcp_client.disconnect()`. -/
def agnoMain (script : List (String × TurnSignal)) : MainResult :=
  let r := agnoLoop script
  match r.2 with
  | LoopExit.caughtError => ⟨r.1, r.2, true, true⟩
  | LoopExit.interrupted => ⟨r.1, r.2, false, true⟩
  | LoopExit.quitCmd => ⟨r.1, r.2, false, true⟩
  | LoopExit.exhausted => ⟨r.1, r.2, false, true⟩

/-- The `while True` loop of `main` in google_adk_client.py
(lines 144-179).  The runner execution of each turn sits in its own
`try`/`except Exception`, which converts the exception into the
user-visible text `Error: ...` wrapped in bold red markup and lets
the loop continue; an empty script models `EOFError`, which the code
turns into "quit".  Returns the rendered per-turn responses and how
the loop ended. -/
def adkLoop : List (String × TurnSignal) → List String × LoopExit
  | [] => ([], LoopExit.quitCmd)
  | (q, sig) :: rest =>
    if pyLower q = "quit" then ([], LoopExit.quitCmd)
    else
      match sig with
      | TurnSignal.ok resp =>
          let r := adkLoop rest
          (resp :: r.1, r.2)
      | TurnSignal.raisesExc m =>
          let r := adkLoop rest
          (("[bold red]Error: " ++ m ++ "[/bold red]") :: r.1, r.2)
      | TurnSignal.interrupt => ([], LoopExit.interrupted)

/-- `main` of google_adk_client.py (lines 83-186): `try` around the loop,
`except Exception` logs (a `KeyboardInterrupt` skips it), `finally`
always runs `await exit_stack.aclose()` (the cleanup call runs on every
exit path, though the exit stack was never populated). -/
def adkMain (script : List (String × TurnSignal)) : MainResult :=
  let r := adkLoop script
  ⟨r.1.length, r.2, false, true⟩

/-- Replace every `raisesExc` turn of a script by a successful turn
(used to compare a run containing failures with the failure-free run). -/
def scrubFailures (script : List (String × TurnSignal)) : List (String × TurnSignal) :=
  script.map fun p =>
    match p.2 with
    | TurnSignal.raisesExc _ => (p.1, TurnSignal.ok "")
    | _ => p

/-! ### Gradio assistant and chat handler -/

/-- Behaviour of the agent runtime on one `arun` call. -/
inductive AgentRun where
  | ok (content : String)
  | raisesExc (msg : String)
  deriving DecidableEq, Repr

/-- `chat_handler` of agno_gradio_client.py (lines 175-184), with the
`connected`/`agent` fields of the global assistant and the outcome of
`assistant.agent.arun` passed explicitly.  History entries are
`[message, response]` pairs. -/
def chat_handler (connected hasAgent : Bool) (run : AgentRun) (message : String)
    (history : List (List String)) : List (List String) :=
  if !connected || !hasAgent then
    history ++ [[message, "Not connected to MCP server! Please connect first."]]
  else
    match run with
    | AgentRun.ok content => history ++ [[message, content]]
    | AgentRun.raisesExc m => history ++ [[message, "Error: " ++ m]]

/-- The fields of a `ZerodhaAssistant` instance. -/
structure AssistantState where
  client : Option MCPClientState
  hasAgent : Bool
  connected : Bool
  deriving DecidableEq, Repr

/-- `ZerodhaAssistant.__init__` (lines 67-70). -/
def AssistantState.fresh : AssistantState :=
  { client := none, hasAgent := false, connected := false }

/-- Which of the fallible steps of `ZerodhaAssistant.connect` raises:
the four steps inside `connect_to_sse_server`, then
`MCPTools.initialize()`, then the `Agent(...)` construction. -/
structure AssistantOracle where
  conn : ConnectOracle
  toolsInitFails : Bool
  agentInitFails : Bool
  deriving DecidableEq, Repr

/-- True when some step of the connect attempt raises. -/
def AssistantOracle.fails (o : AssistantOracle) : Bool :=
  o.conn.openFails || o.conn.sessionFails || o.conn.initFails ||
    o.conn.listToolsFails || o.toolsInitFails || o.agentInitFails

/-- The text `str(e)` of the first exception raised during a connect
attempt (the stand-in of the model for the Python exception message). -/
def describeFailure (o : AssistantOracle) : String :=
  if o.conn.openFails then "stream open failed"
  else if o.conn.sessionFails then "session enter failed"
  else if o.conn.initFails then "initialize failed"
  else if o.conn.listToolsFails then "list_tools failed"
  else if o.toolsInitFails then "tools initialize failed"
  else "agent construction failed"

/-- Result of `ZerodhaAssistant.connect`: the new field state, the
returned status string, and the resource events performed. -/
structure AssistantConnectResult where
  state : AssistantState
  message : String
  trace : List Event
  deriving DecidableEq, Repr

/-- `ZerodhaAssistant.connect` (agno_gradio_client.py lines 72-130):
returns "Already connected!" untouched when `self.connected`; otherwise
creates a fresh `MCPClient`, runs `connect_to_sse_server`, initializes
`MCPTools` and constructs the `Agent`; on any exception it runs
`self.client.disconnect()` (when the client is set), clears
`client`/`agent`/`connected`, and returns a "Failed to connect: ..."
string instead of raising. -/
def assistantConnect (s : AssistantState) (o : AssistantOracle) : AssistantConnectResult :=
  if s.connected then ⟨s, "Already connected!", []⟩
  else
    let r := connectGradio o.conn
    if r.raised then
      -- except branch: self.client is set, so disconnect runs on it
      let c := cleanupGradio r.state
      ⟨AssistantState.fresh, "Failed to connect: " ++ describeFailure o, r.trace ++ c.1⟩
    else if o.toolsInitFails || o.agentInitFails then
      let c := cleanupGradio r.state
      ⟨AssistantState.fresh, "Failed to connect: " ++ describeFailure o, r.trace ++ c.1⟩
    else
      ⟨⟨some r.state, true, true⟩, "Connected successfully! Ready to assist you.", r.trace⟩

/-- `ZerodhaAssistant.disconnect` (lines 132-145): "Not connected!" when
not connected; otherwise runs `self.client.disconnect()` when the client
is set, clears the fields, and reports success. -/
def assistantDisconnect (s : AssistantState) : AssistantState × String × List Event :=
  if !s.connected then (s, "Not connected!", [])
  else
    match s.client with
    | some c => (AssistantState.fresh, "Disconnected successfully!", (cleanupGradio c).1)
    | none => (AssistantState.fresh, "Disconnected successfully!", [])

/-! ### Host/port resolution and connection URL -/

/-- `mcp_host = args.host or os.environ.get("MCP_HOST", "localhost")`
(agno_client.py line 102, google_adk_client.py line 77).  The Python
`or` falls through to its right operand whenever `args.host` is falsy,
i.e. `None` (flag absent) or the empty string. -/
def resolveHost (flagHost : Option String) (envHost : Option String) : String :=
  match flagHost with
  | some h => if h = "" then envHost.getD "localhost" else h
  | none => envHost.getD "localhost"

/-- `mcp_port = args.port or int(os.environ.get("MCP_PORT", "8001"))`
(agno_client.py line 103, google_adk_client.py line 78).  `args.port` is
falsy when `None` (flag absent) or `0`; the environment value is given
here already parsed by `int(...)`. -/
def resolvePort (flagPort : Option Nat) (envPort : Option Nat) : Nat :=
  match flagPort with
  | some p => if p = 0 then envPort.getD 8001 else p
  | none => envPort.getD 8001

/-- `mcp_url = f"http://{mcp_host}:{mcp_port}/sse"` (agno_client.py
line 104, google_adk_client.py line 79). -/
def mcpUrl (flagHost : Option String) (flagPort : Option Nat)
    (envHost : Option String) (envPort : Option Nat) : String :=
  "http://" ++ resolveHost flagHost envHost ++ ":" ++
    toString (resolvePort flagPort envPort) ++ "/sse"

/-! ### Per-turn tool-call ceiling -/

/-- The `tool_call_limit=10` argument passed to `Agent(...)` in
agno_client.py (line 148) and agno_gradio_client.py (line 117). -/
def agentToolCallLimit : Nat := 10

/-- Outcome of one tool-call request within a turn. -/
inductive ToolCallOutcome where
  | executed
  | tooManyToolCalls
  deriving DecidableEq, Repr

/-- Modelled from the spec: the enforcement of the per-turn tool-call
ceiling lives in the external agno Agent runtime, not in this
sources of this repository; only the configured limit (`tool_call_limit=10`)
appears in src.  Following the spec, each request within a turn is
executed while the call counter of the turn is below the limit and refused
with `TooManyToolCalls` once the limit is reached. -/
def toolCallStep (limit : Nat) (callsThisTurn : Nat) : Nat × ToolCallOutcome :=
  if callsThisTurn < limit then (callsThisTurn + 1, ToolCallOutcome.executed)
  else (callsThisTurn, ToolCallOutcome.tooManyToolCalls)

/-- Run `k` consecutive tool-call requests starting from a turn counter
`s`, returning the outcomes in order. -/
def runTurnCalls (limit : Nat) (s : Nat) : Nat → List ToolCallOutcome
  | 0 => []
  | k + 1 =>
      let r := toolCallStep limit s
      r.2 :: runTurnCalls limit r.1 k

/-- Modelled from the spec: a session as a sequence of user turns, the
`i`-th making `turns[i]` tool-call requests; the counter resets at the
start of each user turn. -/
def runTurns (limit : Nat) (turns : List Nat) : List (List ToolCallOutcome) :=
  turns.map fun k => runTurnCalls limit 0 k

/-! ### Helper lemmas -/

/-- The gradio `connect_to_sse_server` re-raises exactly when one of its
four steps raises. -/
lemma connectGradio_raised_iff (c : ConnectOracle) :
    (connectGradio c).raised =
      (c.openFails || c.sessionFails || c.initFails || c.listToolsFails) := by
  obtain ⟨a, b, d, e⟩ := c
  cases a <;> cases b <;> cases d <;> cases e <;> rfl

/-- Replacing the raising turns of a script by successful turns changes
neither the number of responses the adk loop produces nor how it ends. -/
lemma adkLoop_scrub (script : List (String × TurnSignal)) :
    (adkLoop (scrubFailures script)).1.length = (adkLoop script).1.length ∧
    (adkLoop (scrubFailures script)).2 = (adkLoop script).2 := by
  induction script with
  | nil => simp [scrubFailures, adkLoop]
  | cons p rest ih =>
      obtain ⟨q, sig⟩ := p
      by_cases hq : pyLower q = "quit"
      · cases sig <;> simp [scrubFailures, adkLoop, hq]
      · cases sig <;> simp [scrubFailures, adkLoop, hq] <;> exact ih

/-- Closed form of a run of consecutive tool calls: the `i`-th request is
executed when the counter stays under the limit, refused otherwise. -/
lemma runTurnCalls_eq_map (limit : Nat) (k : Nat) :
    ∀ s, runTurnCalls limit s k = (List.range k).map
      (fun i => if s + i < limit then ToolCallOutcome.executed
                else ToolCallOutcome.tooManyToolCalls) := by
  induction k with
  | zero => intro s; simp [runTurnCalls]
  | succ k ih =>
      intro s
      rw [List.range_succ_eq_map]
      by_cases h : s < limit
      · simp only [runTurnCalls, toolCallStep, if_pos h, List.map_cons, List.map_map]
        rw [ih (s + 1)]
        simp only [Nat.add_zero, if_pos h]
        congr 1
        apply List.map_congr_left
        intro i _
        simp only [Function.comp_apply, Nat.succ_eq_add_one]
        have h3 : s + 1 + i = s + (i + 1) := by omega
        rw [h3]
      · simp only [runTurnCalls, toolCallStep, if_neg h, List.map_cons, List.map_map]
        rw [ih s]
        have h0 : ¬ s + 0 < limit := by omega
        simp only [if_neg h0]
        congr 1
        apply List.map_congr_left
        intro i _
        have h1 : ¬ s + i < limit := by omega
        have h2 : ¬ s + (i + 1) < limit := by omega
        simp only [Function.comp_apply, Nat.succ_eq_add_one]
        rw [if_neg h1, if_neg h2]

/-- The turn after the turns of `pre` is run with a fresh counter,
whatever `pre` contained. -/
lemma runTurns_getElem (limit : Nat) (pre post : List Nat) (k : Nat) :
    (runTurns limit (pre ++ k :: post))[pre.length]? = some (runTurnCalls limit 0 k) := by
  simp only [runTurns, List.map_append, List.map_cons]
  rw [List.getElem?_append_right (by simp)]
  simp

/-! ### Claim theorems -/

/-- C5: every successful `connect_to_sse_server`, in both client variants,
performs exactly the steps open Transport Stream, enter Protocol Session,
`initialize`, `list_tools`, in that order, with `list_tools` called
exactly once and no protocol operation before `initialize`. -/
theorem connect_success_steps (o : ConnectOracle) :
    ((connectAgno o).raised = false →
      (connectAgno o).trace =
          [Event.openStream, Event.enterSession, Event.initCall, Event.listTools] ∧
        (connectAgno o).trace.count Event.listTools = 1) ∧
    ((connectGradio o).raised = false →
      (connectGradio o).trace =
          [Event.openStream, Event.enterSession, Event.initCall, Event.listTools] ∧
        (connectGradio o).trace.count Event.listTools = 1) := by
  obtain ⟨a, b, d, e⟩ := o
  cases a <;> cases b <;> cases d <;> cases e <;> decide

/-- Witness for C5 at the all-steps-succeed oracle. -/
theorem connect_success_steps_witness :
    (connectAgno ⟨false, false, false, false⟩).trace =
        [Event.openStream, Event.enterSession, Event.initCall, Event.listTools] ∧
      (connectGradio ⟨false, false, false, false⟩).trace =
        [Event.openStream, Event.enterSession, Event.initCall, Event.listTools] :=
  ⟨((connect_success_steps ⟨false, false, false, false⟩).1 rfl).1,
   ((connect_success_steps ⟨false, false, false, false⟩).2 rfl).1⟩

/-- C6: `cleanup` (both variants) closes the Protocol Session first and the
Transport Stream second; on a fully connected client the close trace is
exactly session-then-stream, and whenever the session context is set the
session close strictly precedes any stream close. -/
theorem cleanup_reverse_order (st sc ses : Bool) :
    (cleanupAgno ⟨true, true, ses⟩).1 = [Event.closeSession, Event.closeStream] ∧
    (cleanupGradio ⟨true, true, ses⟩).1 = [Event.closeSession, Event.closeStream] ∧
    (sc = true →
      (cleanupAgno ⟨st, sc, ses⟩).1.indexOf Event.closeSession <
        (cleanupAgno ⟨st, sc, ses⟩).1.indexOf Event.closeStream) ∧
    (sc = true →
      (cleanupGradio ⟨st, sc, ses⟩).1.indexOf Event.closeSession <
        (cleanupGradio ⟨st, sc, ses⟩).1.indexOf Event.closeStream) := by
  cases st <;> cases sc <;> cases ses <;> decide

/-- Witness for C6 on the fully connected client state. -/
theorem cleanup_reverse_order_witness :
    (cleanupAgno ⟨true, true, true⟩).1 = [Event.closeSession, Event.closeStream] ∧
    (cleanupGradio ⟨true, true, true⟩).1 = [Event.closeSession, Event.closeStream] ∧
    (cleanupAgno ⟨true, true, true⟩).1.indexOf Event.closeSession <
      (cleanupAgno ⟨true, true, true⟩).1.indexOf Event.closeStream ∧
    (cleanupGradio ⟨true, true, true⟩).1.indexOf Event.closeSession <
      (cleanupGradio ⟨true, true, true⟩).1.indexOf Event.closeStream := by
  have h := cleanup_reverse_order true true true
  exact ⟨h.1, h.2.1, h.2.2.1 rfl, h.2.2.2 rfl⟩

/-- C1 counterexample: in agno_client.py, when `session.initialize()`
raises after the Transport Stream was opened, `connect_to_sse_server`
re-raises with the stream still open — it is closed zero times, not
exactly once. -/
theorem connectAgno_leaks_on_failure :
    (connectAgno ⟨false, false, true, false⟩).raised = true ∧
    (connectAgno ⟨false, false, true, false⟩).trace.count Event.openStream = 1 ∧
    (connectAgno ⟨false, false, true, false⟩).trace.count Event.closeStream = 0 := by
  decide

/-- C1 amended: in the gradio variant, for every failure after the stream
opened (session enter, initialize, or list_tools), the error is re-raised
with the stream closed exactly once, and a session that was entered is
closed exactly once. -/
theorem connectGradio_closes_on_failure (sf inf lf : Bool) (h : (sf || inf || lf) = true) :
    (connectGradio ⟨false, sf, inf, lf⟩).raised = true ∧
    (connectGradio ⟨false, sf, inf, lf⟩).trace.count Event.closeStream = 1 ∧
    (connectGradio ⟨false, sf, inf, lf⟩).trace.count Event.closeSession ≤ 1 ∧
    (Event.enterSession ∈ (connectGradio ⟨false, sf, inf, lf⟩).trace →
      (connectGradio ⟨false, sf, inf, lf⟩).trace.count Event.closeSession = 1) := by
  revert h
  cases sf <;> cases inf <;> cases lf <;> decide

/-- Witness for the amended C1 at an initialize failure. -/
theorem connectGradio_closes_on_failure_witness :
    (connectGradio ⟨false, false, true, false⟩).raised = true ∧
    (connectGradio ⟨false, false, true, false⟩).trace.count Event.closeStream = 1 ∧
    (connectGradio ⟨false, false, true, false⟩).trace.count Event.closeSession ≤ 1 ∧
    (Event.enterSession ∈ (connectGradio ⟨false, false, true, false⟩).trace →
      (connectGradio ⟨false, false, true, false⟩).trace.count Event.closeSession = 1) :=
  connectGradio_closes_on_failure false true false (by decide)

/-- C3 counterexample: after a successful connect, a second
`disconnect()`/`cleanup()` on the gradio client emits the session and
stream close attempts again — it is not the claimed no-op, because
`cleanup` never clears `_session_context` or `_streams_context`. -/
theorem disconnect_twice_recloses :
    (cleanupGradio (cleanupGradio (connectGradio ⟨false, false, false, false⟩).state).2).1 =
        [Event.closeSession, Event.closeStream] ∧
    (cleanupGradio (cleanupGradio (connectGradio ⟨false, false, false, false⟩).state).2).1 ≠ [] := by
  decide

/-- C3 amended: a second `cleanup` repeats exactly the close attempts of
the first in both client variants (the stored contexts are never
cleared); only at the `ZerodhaAssistant` level is a second disconnect a
no-op, returning "Not connected!" with no close attempt. -/
theorem disconnect_repeats_close_attempts (s : MCPClientState) (t : AssistantState)
    (ht : t.connected = false) :
    (cleanupAgno (cleanupAgno s).2).1 = (cleanupAgno s).1 ∧
    (cleanupGradio (cleanupGradio s).2).1 = (cleanupGradio s).1 ∧
    assistantDisconnect t = (t, "Not connected!", []) := by
  obtain ⟨a, b, c⟩ := s
  refine ⟨by cases a <;> cases b <;> cases c <;> rfl,
          by cases a <;> cases b <;> cases c <;> rfl, ?_⟩
  simp [assistantDisconnect, ht]

/-- Witness for the amended C3 on the fully connected client state and the
fresh assistant. -/
theorem disconnect_repeats_close_attempts_witness :
    (cleanupAgno (cleanupAgno ⟨true, true, true⟩).2).1 = (cleanupAgno ⟨true, true, true⟩).1 ∧
    (cleanupGradio (cleanupGradio ⟨true, true, true⟩).2).1 = (cleanupGradio ⟨true, true, true⟩).1 ∧
    assistantDisconnect AssistantState.fresh = (AssistantState.fresh, "Not connected!", []) :=
  disconnect_repeats_close_attempts ⟨true, true, true⟩ AssistantState.fresh rfl

/-- C2 counterexample: in agno_client.py a single raising turn terminates
the Interactive Loop — the run stops after one attempted turn with the
error caught outside the `while` loop, never reading the second input. -/
theorem agno_loop_dies_on_failed_turn :
    agnoMain [("first", TurnSignal.raisesExc "boom"), ("second", TurnSignal.ok "hi")] =
      ⟨1, LoopExit.caughtError, true, true⟩ := by
  decide

/-- C2 amended: in google_adk_client.py a raising turn is converted to a
user-visible error text and the loop continues exactly as the
failure-free run (same number of turns, same exit), and the gradio
`chat_handler` likewise converts the exception to an error entry; in
agno_client.py the error is rendered and cleanup runs, but the loop
terminates after the failed turn. -/
theorem turn_failure_handling (script rest : List (String × TurnSignal)) (q m : String)
    (hq : pyLower q ≠ "quit") :
    (adkLoop script).1.length = (adkLoop (scrubFailures script)).1.length ∧
    (adkLoop script).2 = (adkLoop (scrubFailures script)).2 ∧
    (adkLoop ((q, TurnSignal.raisesExc m) :: rest)).1.head? =
      some ("[bold red]Error: " ++ m ++ "[/bold red]") ∧
    agnoMain ((q, TurnSignal.raisesExc m) :: rest) = ⟨1, LoopExit.caughtError, true, true⟩ ∧
    ∀ msg h, chat_handler true true (AgentRun.raisesExc m) msg h =
      h ++ [[msg, "Error: " ++ m]] := by
  refine ⟨(adkLoop_scrub script).1.symm, (adkLoop_scrub script).2.symm, ?_, ?_, ?_⟩
  · simp [adkLoop, hq]
  · simp [agnoMain, agnoLoop, hq]
  · intro msg h
    simp [chat_handler]

/-- Witness for the amended C2 on a one-turn failing script. -/
theorem turn_failure_handling_witness :
    (adkLoop [("a", TurnSignal.raisesExc "x")]).1.length =
        (adkLoop (scrubFailures [("a", TurnSignal.raisesExc "x")])).1.length ∧
    (adkLoop [("a", TurnSignal.raisesExc "x")]).2 =
        (adkLoop (scrubFailures [("a", TurnSignal.raisesExc "x")])).2 ∧
    (adkLoop [("a", TurnSignal.raisesExc "boom")]).1.head? =
        some ("[bold red]Error: boom[/bold red]") ∧
    agnoMain [("a", TurnSignal.raisesExc "boom")] = ⟨1, LoopExit.caughtError, true, true⟩ ∧
    chat_handler true true (AgentRun.raisesExc "boom") "hi" [["m", "r"]] =
        [["m", "r"]] ++ [["hi", "Error: boom"]] := by
  have h1 := turn_failure_handling [("a", TurnSignal.raisesExc "x")] [] "a" "x" (by decide)
  have h2 := turn_failure_handling [("a", TurnSignal.raisesExc "x")] [] "a" "boom" (by decide)
  exact ⟨h1.1, h1.2.1, h2.2.2.1, h2.2.2.2.1, h2.2.2.2.2 "hi" [["m", "r"]]⟩

/-- C4: in both CLI clients, a user input equal to "quit" under
case-insensitive comparison exits the Interactive Loop cleanly with the
cleanup call run, and the cleanup call runs on every exit path of the
loop (quit, exhausted input, caught exception, external interrupt). -/
theorem quit_exits_cleanup_all_paths (q : String) (sig : TurnSignal)
    (rest script : List (String × TurnSignal)) (hq : pyLower q = "quit") :
    agnoMain ((q, sig) :: rest) = ⟨0, LoopExit.quitCmd, false, true⟩ ∧
    adkMain ((q, sig) :: rest) = ⟨0, LoopExit.quitCmd, false, true⟩ ∧
    (agnoMain script).cleanupRan = true ∧
    (adkMain script).cleanupRan = true := by
  refine ⟨by simp [agnoMain, agnoLoop, hq], by simp [adkMain, adkLoop, hq], ?_, rfl⟩
  cases hE : (agnoLoop script).2 <;> simp [agnoMain, hE]

/-- Witness for C4 at the mixed-case input "QUIT" and an interrupted
script. -/
theorem quit_exits_cleanup_all_paths_witness :
    agnoMain [("QUIT", TurnSignal.ok "")] = ⟨0, LoopExit.quitCmd, false, true⟩ ∧
    adkMain [("QUIT", TurnSignal.ok "")] = ⟨0, LoopExit.quitCmd, false, true⟩ ∧
    (agnoMain [("x", TurnSignal.interrupt)]).cleanupRan = true ∧
    (adkMain [("x", TurnSignal.interrupt)]).cleanupRan = true :=
  quit_exits_cleanup_all_paths "QUIT" (TurnSignal.ok "") []
    [("x", TurnSignal.interrupt)] (by decide)

/-- C7: with the configured `tool_call_limit` of 10, a turn making more
than 10 tool-call requests has its first 10 executed and its 11th
(index 10) refused with `TooManyToolCalls`, and the ceiling resets at the
start of the next user turn: the turn following any history `pre` of
turns behaves as from a fresh counter. -/
theorem tool_call_ceiling (pre post : List Nat) (k : Nat) (hk : agentToolCallLimit < k) :
    (runTurns agentToolCallLimit (pre ++ k :: post))[pre.length]? =
        some (runTurnCalls agentToolCallLimit 0 k) ∧
    (runTurnCalls agentToolCallLimit 0 k).length = k ∧
    (runTurnCalls agentToolCallLimit 0 k)[agentToolCallLimit]? =
        some ToolCallOutcome.tooManyToolCalls ∧
    ∀ i, i < agentToolCallLimit →
      (runTurnCalls agentToolCallLimit 0 k)[i]? = some ToolCallOutcome.executed := by
  refine ⟨runTurns_getElem _ pre post k, ?_, ?_, ?_⟩
  · rw [runTurnCalls_eq_map]; simp
  · rw [runTurnCalls_eq_map]
    rw [List.getElem?_map]
    rw [List.getElem?_range hk]
    simp [agentToolCallLimit]
  · intro i hi
    rw [runTurnCalls_eq_map]
    rw [List.getElem?_map]
    rw [List.getElem?_range (by omega : i < k)]
    have h4 : 0 + i < agentToolCallLimit := by omega
    simp [h4]
    exact hi

/-- Witness for C7: a turn of 11 requests after a turn of 12. -/
theorem tool_call_ceiling_witness :
    (runTurns agentToolCallLimit ([12] ++ 11 :: []))[1]? =
        some (runTurnCalls agentToolCallLimit 0 11) ∧
    (runTurnCalls agentToolCallLimit 0 11).length = 11 ∧
    (runTurnCalls agentToolCallLimit 0 11)[agentToolCallLimit]? =
        some ToolCallOutcome.tooManyToolCalls ∧
    (runTurnCalls agentToolCallLimit 0 11)[5]? = some ToolCallOutcome.executed := by
  have h := tool_call_ceiling [12] [] 11 (by decide)
  exact ⟨h.1, h.2.1, h.2.2.1, h.2.2.2 5 (by decide)⟩

/-- C8 counterexample: a given but falsy CLI flag does not take
precedence — an empty `--host` and a zero `--port` fall through to the
environment values, because the code uses the truthiness-based Python
`or`. -/
theorem falsy_flag_loses_to_env :
    resolveHost (some "") (some "envhost") = "envhost" ∧ "envhost" ≠ "" ∧
    resolvePort (some 0) (some 9000) = 9000 ∧ 9000 ≠ 0 := by
  refine ⟨rfl, by decide, rfl, by decide⟩

/-- C8 amended: a truthy CLI flag (non-empty host, non-zero port) takes
precedence; an absent or falsy flag falls back to the environment
variable and then to the defaults "localhost" and 8001; the URL is
exactly `http://` ++ host ++ `:` ++ port ++ `/sse`. -/
theorem config_resolution (eh : Option String) (ep : Option Nat) (s : String) (p : Nat)
    (hs : s ≠ "") (hp : p ≠ 0) :
    resolveHost (some s) eh = s ∧
    resolveHost none eh = eh.getD "localhost" ∧
    resolveHost (some "") eh = eh.getD "localhost" ∧
    resolvePort (some p) ep = p ∧
    resolvePort none ep = ep.getD 8001 ∧
    resolvePort (some 0) ep = ep.getD 8001 ∧
    ∀ fh fp, mcpUrl fh fp eh ep =
      "http://" ++ resolveHost fh eh ++ ":" ++ toString (resolvePort fp ep) ++ "/sse" := by
  have h1 : resolveHost (some s) eh = if s = "" then eh.getD "localhost" else s := rfl
  have h2 : resolvePort (some p) ep = if p = 0 then ep.getD 8001 else p := rfl
  refine ⟨by rw [h1, if_neg hs], rfl, rfl, by rw [h2, if_neg hp], rfl, rfl, ?_⟩
  intro fh fp
  rfl

/-- Witness for the amended C8 at concrete flag and environment values. -/
theorem config_resolution_witness :
    resolveHost (some "myhost") (some "envhost") = "myhost" ∧
    resolveHost none (some "envhost") = "envhost" ∧
    resolveHost none none = "localhost" ∧
    resolvePort (some 1234) (some 9000) = 1234 ∧
    resolvePort none none = 8001 ∧
    mcpUrl (some "myhost") (some 1234) (some "envhost") (some 9000) =
      "http://myhost:1234/sse" := by
  have h1 := config_resolution (some "envhost") (some 9000) "myhost" 1234
    (by decide) (by decide)
  have h2 := config_resolution none none "myhost" 1234 (by decide) (by decide)
  refine ⟨h1.1, h1.2.1, h2.2.1, h1.2.2.2.1, h2.2.2.2.2.1, ?_⟩
  rw [h1.2.2.2.2.2.2 (some "myhost") (some 1234), h1.1, h1.2.2.2.1]
  rfl

/-- C9: `ZerodhaAssistant.connect` is atomic on failure — whenever any
step raises, it returns the "Failed to connect" string instead of
raising and leaves the assistant in the fully disconnected state
(client `None`, agent `None`, `connected` false); and when already
connected it returns "Already connected!" with the state untouched and
no resource event, so at most one connection is open per instance. -/
theorem assistant_connect_atomic (s : AssistantState) (o : AssistantOracle) :
    (s.connected = false → o.fails = true →
      (assistantConnect s o).state = AssistantState.fresh ∧
      (assistantConnect s o).message = "Failed to connect: " ++ describeFailure o) ∧
    (s.connected = true → assistantConnect s o = ⟨s, "Already connected!", []⟩) := by
  constructor
  · intro h1 h2
    simp only [assistantConnect, h1, Bool.false_eq_true, if_false]
    obtain ⟨⟨a, b, c, d⟩, e, f⟩ := o
    revert h2
    cases a <;> cases b <;> cases c <;> cases d <;> cases e <;> cases f <;> decide
  · intro h1
    simp [assistantConnect, h1]

/-- Witness for C9: a failed connect attempt from the fresh state and a
connect call on an already connected assistant. -/
theorem assistant_connect_atomic_witness :
    ((assistantConnect AssistantState.fresh ⟨⟨false, false, true, false⟩, false, false⟩).state =
        AssistantState.fresh ∧
      (assistantConnect AssistantState.fresh ⟨⟨false, false, true, false⟩, false, false⟩).message =
        "Failed to connect: " ++ describeFailure ⟨⟨false, false, true, false⟩, false, false⟩) ∧
    assistantConnect ⟨some ⟨true, true, true⟩, true, true⟩
        ⟨⟨false, false, false, false⟩, false, false⟩ =
      ⟨⟨some ⟨true, true, true⟩, true, true⟩, "Already connected!", []⟩ :=
  ⟨(assistant_connect_atomic AssistantState.fresh
      ⟨⟨false, false, true, false⟩, false, false⟩).1 rfl rfl,
   (assistant_connect_atomic ⟨some ⟨true, true, true⟩, true, true⟩
      ⟨⟨false, false, false, false⟩, false, false⟩).2 rfl⟩

/-- C10: `chat_handler` never mutates or truncates the history — for every
input it returns the input history with exactly one `[message, response]`
pair appended, in each of its three outcomes (not-connected notice,
normal response, error string). -/
theorem chat_handler_appends (c a : Bool) (run : AgentRun) (msg : String)
    (history : List (List String)) :
    (∃ resp, chat_handler c a run msg history = history ++ [[msg, resp]]) ∧
    (chat_handler c a run msg history).length = history.length + 1 ∧
    (chat_handler c a run msg history).take history.length = history := by
  have key : ∃ resp, chat_handler c a run msg history = history ++ [[msg, resp]] := by
    unfold chat_handler
    by_cases hc : (!c || !a) = true
    · exact ⟨_, by rw [if_pos hc]⟩
    · cases run with
      | ok content => exact ⟨content, by rw [if_neg hc]⟩
      | raisesExc m => exact ⟨"Error: " ++ m, by rw [if_neg hc]⟩
  obtain ⟨resp, hr⟩ := key
  refine ⟨⟨resp, hr⟩, ?_, ?_⟩
  · rw [hr]; simp
  · rw [hr]
    exact List.take_left history _

end ZerodhaMCP
